import Mathlib

/-!
# Verification of the JioMart expansion-analysis pipeline

A shallow embedding of the synthetic-data generation and analysis logic of
`complete_analysis.py`.  Machine reals are modelled as exact rationals `ℚ`;
Python's `round(x, 2)` (banker's rounding to two decimals) is modelled by
`round2` below.  Random draws become explicit parameters constrained to the
ranges the generator samples from.
-/

/-- Round a rational to the nearest integer, ties to even — the semantics of
Python's built-in `round` (used as `round(x, 2)` throughout the script). -/
def roundHE (q : ℚ) : ℤ :=
  if q - (⌊q⌋ : ℚ) < 1/2 then ⌊q⌋
  else if 1/2 < q - (⌊q⌋ : ℚ) then ⌊q⌋ + 1
  else if ⌊q⌋ % 2 = 0 then ⌊q⌋ else ⌊q⌋ + 1

/-- Python's `round(x, 2)`: round to two decimal places, ties to even. -/
def round2 (q : ℚ) : ℚ := (roundHE (q * 100) : ℚ) / 100

/-! ## City tiers and tier-dependent transaction parameters -/

/-- The three city tiers driving all tier-dependent sampling. -/
inductive Tier where
  | metro
  | tier2
  | tier3
deriving DecidableEq

/-- Per-kilometre logistics rate by tier (`delivery_distance * rate + fee`). -/
def logisticsRate : Tier → ℚ
  | .metro => 5/2
  | .tier2 => 7/2
  | .tier3 => 9/2

/-- Fixed logistics fee by tier. -/
def logisticsFee : Tier → ℚ
  | .metro => 15
  | .tier2 => 25
  | .tier3 => 35

/-- The discount percentages `np.random.choice` can return per tier:
Metro draws from `[0, 5, 10, 15]`, Tier 2/3 from `[0, 5, 10, 15, 20]`. -/
def discountSupport : Tier → List ℚ
  | .metro => [0, 5, 10, 15]
  | .tier2 => [0, 5, 10, 15, 20]
  | .tier3 => [0, 5, 10, 15, 20]

/-- Lower bound of the tier's `delivery_distance` uniform range. -/
def distanceLo : Tier → ℚ
  | .metro => 1
  | .tier2 => 3
  | .tier3 => 5

/-- Upper bound (excluded) of the tier's `delivery_distance` uniform range. -/
def distanceHi : Tier → ℚ
  | .metro => 15
  | .tier2 => 30
  | .tier3 => 60

/-- Constraint on the spoilage uniform factor: Metro transactions draw no
spoilage factor at all (modelled as `0`); Tier 2 draws from `[0, 0.08)`,
Tier 3 from `[0, 0.15)`. -/
def spoilageDrawOK : Tier → ℚ → Prop
  | .metro, u => u = 0
  | .tier2, u => 0 ≤ u ∧ u < 8/100
  | .tier3, u => 0 ≤ u ∧ u < 15/100

/-! ## Product catalogue reference data -/

/-- One entry of the `product_categories` table: item names, the uniform
range for unit cost, the uniform range for target margin %, perishability. -/
structure CategorySpec where
  name : String
  items : List String
  costLo : ℚ
  costHi : ℚ
  marginLo : ℚ
  marginHi : ℚ
  perishable : Bool
deriving DecidableEq

def groceries : CategorySpec :=
  ⟨"Groceries",
   ["Basmati Rice 5kg", "Wheat Flour 10kg", "Sunflower Oil 1L", "Sugar 1kg",
    "Toor Dal 1kg", "Spices Mix"], 40, 250, 12, 20, false⟩

def freshProduce : CategorySpec :=
  ⟨"Fresh Produce",
   ["Seasonal Vegetables", "Fresh Fruits", "Milk 1L", "Eggs Dozen",
    "Paneer 200g", "Fresh Chicken"], 30, 180, 18, 28, true⟩

def packagedFoods : CategorySpec :=
  ⟨"Packaged Foods",
   ["Biscuits Assorted", "Namkeen Mix", "Instant Noodles", "Sauces",
    "Beverages", "Bread"], 25, 150, 15, 25, false⟩

def personalCare : CategorySpec :=
  ⟨"Personal Care",
   ["Shampoo 200ml", "Soap Bar", "Toothpaste", "Face Wash", "Body Lotion",
    "Hair Oil"], 50, 300, 20, 35, false⟩

def homeCare : CategorySpec :=
  ⟨"Home Care",
   ["Detergent 1kg", "Floor Cleaner", "Dishwash Liquid", "Toilet Cleaner",
    "Air Freshener"], 40, 200, 18, 28, false⟩

def electronics : CategorySpec :=
  ⟨"Electronics",
   ["Mobile Phones", "TWS Earbuds", "Phone Chargers", "Power Banks",
    "Smart Watches"], 500, 15000, 8, 15, false⟩

def fashion : CategorySpec :=
  ⟨"Fashion",
   ["T-Shirts", "Jeans", "Footwear", "Accessories", "Kids Wear"],
   200, 2000, 25, 45, false⟩

/-- The seven product categories of the script, in source order. -/
def productCategories : List CategorySpec :=
  [groceries, freshProduce, packagedFoods, personalCare, homeCare,
   electronics, fashion]

/-- A stored product price pair is valid when it arises from the product
generator: a category in the table, a cost and a margin drawn from that
category's uniform ranges, `unit_cost = round(cost, 2)` and
`list_price = round(cost / (1 - margin/100), 2)`. -/
def ValidProductFields (listPrice unitCost : ℚ) (isPerishable : Bool) : Prop :=
  ∃ cat ∈ productCategories, ∃ c m : ℚ,
    cat.costLo ≤ c ∧ c < cat.costHi ∧
    cat.marginLo ≤ m ∧ m < cat.marginHi ∧
    unitCost = round2 c ∧
    listPrice = round2 (c / (1 - m / 100)) ∧
    isPerishable = cat.perishable

/-! ## The transaction generator -/

/-- The sampled inputs of one iteration of the transaction loop; the raw
log-normal quantity draw is kept as the integer `int(...)` truncation. -/
structure TxInput where
  tier : Tier
  listPrice : ℚ
  unitCost : ℚ
  isPerishable : Bool
  rawQty : ℤ
  discount : ℚ
  deliveryDistance : ℚ
  spoilageDraw : ℚ

/-- `qty = max(1, min(qty, 10))`. -/
def rawQuantity (inp : TxInput) : ℤ := max 1 (min inp.rawQty 10)

/-- `unit_price = list_price * (1 - discount/100)`. -/
def rawUnitPrice (inp : TxInput) : ℚ := inp.listPrice * (1 - inp.discount / 100)

/-- `revenue = unit_price * qty`. -/
def rawRevenue (inp : TxInput) : ℚ := rawUnitPrice inp * (rawQuantity inp : ℚ)

/-- `product_cost = unit_cost * qty`. -/
def rawProductCost (inp : TxInput) : ℚ := inp.unitCost * (rawQuantity inp : ℚ)

/-- `logistics_cost = delivery_distance * rate + fee`, tier-dependent. -/
def rawLogisticsCost (inp : TxInput) : ℚ :=
  inp.deliveryDistance * logisticsRate inp.tier + logisticsFee inp.tier

/-- Lines 279–284: spoilage starts at 0 and is assigned only for perishable
products in Tier 2 (`product_cost * U(0, 0.08)`) or
Tier 3 (`product_cost * U(0, 0.15)`); Metro keeps 0. -/
def spoilageCost (t : Tier) (isPerishable : Bool) (productCost u : ℚ) : ℚ :=
  if isPerishable then
    match t with
    | .metro => 0
    | .tier2 => productCost * u
    | .tier3 => productCost * u
  else 0

def rawSpoilageCost (inp : TxInput) : ℚ :=
  spoilageCost inp.tier inp.isPerishable (rawProductCost inp) inp.spoilageDraw

/-- `total_cost = product_cost + logistics_cost + spoilage_cost`. -/
def rawTotalCost (inp : TxInput) : ℚ :=
  rawProductCost inp + rawLogisticsCost inp + rawSpoilageCost inp

/-- `margin = revenue - total_cost`. -/
def rawMargin (inp : TxInput) : ℚ := rawRevenue inp - rawTotalCost inp

/-- `margin_pct = (margin / revenue * 100) if revenue > 0 else 0`. -/
def rawMarginPct (inp : TxInput) : ℚ :=
  if 0 < rawRevenue inp then rawMargin inp / rawRevenue inp * 100 else 0

/-- The financial fields of a stored transaction row (the numeric columns of
`transactions_data`, each rounded to two decimals as in lines 295–316). -/
structure TxRow where
  quantity : ℤ
  unitPrice : ℚ
  revenue : ℚ
  productCost : ℚ
  logisticsCost : ℚ
  spoilageCost : ℚ
  totalCost : ℚ
  margin : ℚ
  marginPct : ℚ
  discountPct : ℚ

/-- Build the stored transaction row from the sampled inputs, mirroring the
derivation and the per-field `round(_, 2)` of the append at lines 295–316. -/
def mkTransaction (inp : TxInput) : TxRow :=
  { quantity := rawQuantity inp
    unitPrice := round2 (rawUnitPrice inp)
    revenue := round2 (rawRevenue inp)
    productCost := round2 (rawProductCost inp)
    logisticsCost := round2 (rawLogisticsCost inp)
    spoilageCost := round2 (rawSpoilageCost inp)
    totalCost := round2 (rawTotalCost inp)
    margin := round2 (rawMargin inp)
    marginPct := round2 (rawMarginPct inp)
    discountPct := inp.discount }

/-- The sampling constraints the transaction generator obeys: the product
fields come from the product generator, the discount from the tier's
categorical support, the delivery distance from the tier's uniform range,
and the spoilage factor from the tier's uniform range. -/
def ValidTxInput (inp : TxInput) : Prop :=
  ValidProductFields inp.listPrice inp.unitCost inp.isPerishable ∧
  inp.discount ∈ discountSupport inp.tier ∧
  distanceLo inp.tier ≤ inp.deliveryDistance ∧
  inp.deliveryDistance < distanceHi inp.tier ∧
  spoilageDrawOK inp.tier inp.spoilageDraw

/-! ## Concrete inputs used by the scenario claim -/

/-! ## The product generator's size and the classifier guard -/

/-- The number of products generated: one per item name per category. -/
def numProducts : ℕ := (productCategories.map fun c => c.items.length).sum

/-- Outcome of the margin-risk classifier stage. -/
inductive ClassifierOutcome where
  | trained
  | skippedWarning
deriving DecidableEq

/-- Lines 673–726: the per-store high-risk labels are `margin_pct < 10`;
the classifier block (split, scaling, fit, report) runs only when
`len(y.unique()) > 1`, otherwise a warning is printed instead. -/
def marginRiskStage (storeMarginPcts : List ℚ) : ClassifierOutcome :=
  if 1 < ((storeMarginPcts.map fun m => decide (m < 10)).dedup).length then
    ClassifierOutcome.trained
  else
    ClassifierOutcome.skippedWarning

/-! ## The cluster-naming rule -/

/-- `pandas.idxmax`: the first index attaining the maximum of `f` over the
four cluster ids. -/
def idxmaxF (f : Fin 4 → ℚ) : Fin 4 :=
  (List.finRange 4).foldl (fun best i => if f best < f i then i else best) 0

/-- `pandas.idxmin`: the first index attaining the minimum of `f` over the
four cluster ids. -/
def idxminF (f : Fin 4 → ℚ) : Fin 4 :=
  (List.finRange 4).foldl (fun best i => if f i < f best then i else best) 0

/-- Insert key `k` with value `v` into a finite map, overwriting any earlier
binding of `k` — the semantics of a repeated key in a Python dict literal. -/
def updateMap (m : Fin 4 → Option String) (k : Fin 4) (v : String) :
    Fin 4 → Option String :=
  fun i => if i = k then some v else m i

/-- The dict literal of lines 848–852: insert `idxmax(Avg Revenue) ↦ "High
Value"`, then `idxmax(Avg Purchases) ↦ "Frequent Buyers"`, then
`idxmin(Avg Revenue) ↦ "Low Engagement"`; a repeated key keeps the value
assigned last. -/
def baseNames (rev cnt : Fin 4 → ℚ) : Fin 4 → Option String :=
  updateMap
    (updateMap (updateMap (fun _ => none) (idxmaxF rev) "High Value")
      (idxmaxF cnt) "Frequent Buyers")
    (idxminF rev) "Low Engagement"

/-- Lines 848–858: the cluster-name map; the first cluster id missing from
the dict (if any) is additionally mapped to `"Moderate"`. -/
def clusterNames (rev cnt : Fin 4 → ℚ) : Fin 4 → Option String :=
  match (List.finRange 4).filter (fun i => (baseNames rev cnt i).isNone) with
  | [] => baseNames rev cnt
  | r :: _ => updateMap (baseNames rev cnt) r "Moderate"

/-! ## Concrete inputs used by the claims -/

/-- The end-to-end scenario input of spec §8: `list_price=100, discount=10,
qty=2, unit_cost=40, tier=Metro, distance=10`, non-perishable. -/
def c3inp : TxInput :=
  { tier := .metro, listPrice := 100, unitCost := 40, isPerishable := false
    rawQty := 2, discount := 10, deliveryDistance := 10, spoilageDraw := 0 }

/-- A representative Metro transaction input (Groceries product with
`cost = 100`, `margin = 15%`, so `list_price = round(100/0.85, 2) = 117.65`). -/
def sampleInput : TxInput :=
  { tier := .metro, listPrice := 117.65, unitCost := 100, isPerishable := false
    rawQty := 2, discount := 10, deliveryDistance := 5, spoilageDraw := 0 }

/-- A Tier 2 perishable transaction input (Fresh Produce product with
`cost = 100`, `margin = 20%`, so `list_price = 125`). -/
def t2inp : TxInput :=
  { tier := .tier2, listPrice := 125, unitCost := 100, isPerishable := true
    rawQty := 3, discount := 20, deliveryDistance := 10, spoilageDraw := 1/20 }

/-- A Metro transaction on which the stored-value rounding identity of the
spec fails: Groceries product with `cost = 92.5`, `margin = 12.5%` (so
`list_price = round(92.5/0.875, 2) = 105.71`), `discount = 5`, `qty = 1`,
`delivery_distance = 6.0036`. -/
def c2inp : TxInput :=
  { tier := .metro, listPrice := 105.71, unitCost := 92.5, isPerishable := false
    rawQty := 1, discount := 5, deliveryDistance := 6.0036, spoilageDraw := 0 }

/-- Cluster profile averages with pairwise-distinct revenues and a distinct
argmax for purchases: `Avg Revenue` per cluster id. -/
def c1rev : Fin 4 → ℚ := ![4, 1, 2, 3]

/-- `Avg Purchases` per cluster id for the same profiles. -/
def c1cnt : Fin 4 → ℚ := ![1, 2, 4, 3]

/-- Profiles on which the max-revenue and max-purchase cluster coincide
(cluster 0 maximizes both). -/
def c1tie : Fin 4 → ℚ := ![10, 1, 2, 3]

/-! ## The spec's claims as stated, for refutation -/

/-- C2 as stated: the rounding identities hold between the *stored*
(2-decimal-rounded) fields of every generated transaction. -/
def C2StoredClaim : Prop :=
  ∀ inp : TxInput, ValidTxInput inp →
    (mkTransaction inp).margin =
      round2 ((mkTransaction inp).revenue - (mkTransaction inp).totalCost) ∧
    (mkTransaction inp).totalCost =
      round2 ((mkTransaction inp).productCost + (mkTransaction inp).logisticsCost +
        (mkTransaction inp).spoilageCost)

/-- C1 as stated: the max-revenue cluster is always labeled "High Value" and
the max-purchase-count cluster "Frequent Buyers", with a revenue/purchase
tie resolved in favour of "High Value". -/
def C1StatedClaim : Prop :=
  ∀ rev cnt : Fin 4 → ℚ,
    clusterNames rev cnt (idxmaxF rev) = some "High Value" ∧
    clusterNames rev cnt (idxmaxF cnt) = some "Frequent Buyers"

/-! ## Rounding lemmas -/

theorem roundHE_ge (q : ℚ) : q - 1/2 ≤ (roundHE q : ℚ) := by
  have h1 : ((⌊q⌋ : ℤ) : ℚ) ≤ q := Int.floor_le q
  have h2 : q < (⌊q⌋ : ℤ) + 1 := Int.lt_floor_add_one q
  unfold roundHE
  split_ifs <;> push_cast <;> linarith

theorem roundHE_le (q : ℚ) : (roundHE q : ℚ) ≤ q + 1/2 := by
  have h1 : ((⌊q⌋ : ℤ) : ℚ) ≤ q := Int.floor_le q
  have h2 : q < (⌊q⌋ : ℤ) + 1 := Int.lt_floor_add_one q
  unfold roundHE
  split_ifs <;> push_cast <;> linarith

theorem round2_ge (q : ℚ) : q - 1/200 ≤ round2 q := by
  have h := roundHE_ge (q * 100)
  rw [round2, le_div_iff₀ (by norm_num : (0:ℚ) < 100)]
  linarith

theorem round2_le (q : ℚ) : round2 q ≤ q + 1/200 := by
  have h := roundHE_le (q * 100)
  rw [round2, div_le_iff₀ (by norm_num : (0:ℚ) < 100)]
  linarith

/-- Evaluation rule for `round2` away from ties: if `q·100` lies strictly
within half a unit of the integer `n`, then `round2 q = n/100`. -/
theorem round2_eq_of (q : ℚ) (n : ℤ) (hlo : (n : ℚ) - 1/2 < q * 100)
    (hhi : q * 100 < (n : ℚ) + 1/2) : round2 q = (n : ℚ) / 100 := by
  unfold round2 roundHE
  rcases le_or_lt (n : ℚ) (q * 100) with h | h
  · have hf : ⌊q * 100⌋ = n := by
      rw [Int.floor_eq_iff]
      exact ⟨h, by linarith⟩
    rw [hf, if_pos (by linarith)]
  · have hf : ⌊q * 100⌋ = n - 1 := by
      rw [Int.floor_eq_iff]
      constructor
      · push_cast; linarith
      · push_cast; linarith
    rw [hf, if_neg (by push_cast; linarith), if_pos (by push_cast; linarith)]
    push_cast
    ring_nf

/-! ## Helper lemmas about the reference tables -/

theorem cat_ranges_bound : ∀ cat ∈ productCategories,
    25 ≤ cat.costLo ∧ 8 ≤ cat.marginLo ∧ cat.marginHi ≤ 45 := by
  intro cat hcat
  simp only [productCategories, List.mem_cons, List.not_mem_nil, or_false] at hcat
  rcases hcat with rfl | rfl | rfl | rfl | rfl | rfl | rfl <;>
    norm_num [groceries, freshProduce, packagedFoods, personalCare, homeCare,
      electronics, fashion]

theorem discount_bounds : ∀ (t : Tier), ∀ d ∈ discountSupport t,
    0 ≤ d ∧ d ≤ 20 := by
  intro t d h
  cases t
  all_goals
    simp only [discountSupport, List.mem_cons, List.not_mem_nil, or_false] at h
  · rcases h with rfl | rfl | rfl | rfl <;> norm_num
  · rcases h with rfl | rfl | rfl | rfl | rfl <;> norm_num
  · rcases h with rfl | rfl | rfl | rfl | rfl <;> norm_num

theorem support_subset (t : Tier) : ∀ d ∈ discountSupport t,
    d ∈ ([0, 5, 10, 15, 20] : List ℚ) := by
  intro d h
  cases t <;>
    simp only [discountSupport, List.mem_cons, List.not_mem_nil, or_false]
      at h ⊢ <;>
    tauto

theorem round2_zero : round2 0 = 0 := by
  rw [round2_eq_of 0 0 (by norm_num) (by norm_num)]
  norm_num

/-- For any valid product, the stored prices satisfy `24 ≤ unit_cost` and
`unit_cost < list_price` (the raw list price exceeds the raw cost by at
least 2, which 2-decimal rounding cannot erase). -/
theorem validProduct_spread (lp uc : ℚ) (pb : Bool)
    (h : ValidProductFields lp uc pb) : 24 ≤ uc ∧ uc < lp := by
  obtain ⟨cat, hcat, c, m, hc1, hc2, hm1, hm2, huc, hlp, -⟩ := h
  obtain ⟨hb1, hb2, hb3⟩ := cat_ranges_bound cat hcat
  have hc : 25 ≤ c := le_trans hb1 hc1
  have hm8 : 8 ≤ m := le_trans hb2 hm1
  have hm45 : m < 45 := lt_of_lt_of_le hm2 hb3
  have hd : 0 < 1 - m / 100 := by linarith
  have key : c + 2 ≤ c / (1 - m / 100) := by
    rw [le_div_iff₀ hd]
    nlinarith
  have e1 : c - 1/200 ≤ uc := huc ▸ round2_ge c
  have e2 : uc ≤ c + 1/200 := huc ▸ round2_le c
  have e3 : c / (1 - m / 100) - 1/200 ≤ lp := hlp ▸ round2_ge _
  constructor <;> linarith

/-- Spoilage is zero raw for Metro transactions and non-perishables. -/
theorem rawSpoilage_eq_zero (inp : TxInput)
    (h : inp.tier = Tier.metro ∨ inp.isPerishable = false) :
    rawSpoilageCost inp = 0 := by
  rw [rawSpoilageCost, spoilageCost.eq_def]
  rcases h with h | h
  · rw [h]
    cases inp.isPerishable <;> simp
  · rw [h]
    simp

/-! ## Validity of the concrete inputs -/

theorem sampleInput_valid : ValidTxInput sampleInput := by
  refine ⟨⟨groceries, by simp [productCategories], 100, 15, ?_, ?_, ?_, ?_,
    ?_, ?_, rfl⟩, ?_, ?_, ?_, rfl⟩
  · norm_num [groceries]
  · norm_num [groceries]
  · norm_num [groceries]
  · norm_num [groceries]
  · show (100 : ℚ) = round2 100
    rw [round2_eq_of 100 10000 (by norm_num) (by norm_num)]
    norm_num
  · show (117.65 : ℚ) = round2 (100 / (1 - 15 / 100))
    rw [show (100 : ℚ) / (1 - 15 / 100) = 2000/17 by norm_num,
      round2_eq_of (2000/17) 11765 (by norm_num) (by norm_num)]
    norm_num
  · norm_num [discountSupport, sampleInput, List.mem_cons]
  · norm_num [distanceLo, sampleInput]
  · norm_num [distanceHi, sampleInput]

theorem t2inp_valid : ValidTxInput t2inp := by
  refine ⟨⟨freshProduce, by simp [productCategories], 100, 20, ?_, ?_, ?_, ?_,
    ?_, ?_, rfl⟩, ?_, ?_, ?_, ?_⟩
  · norm_num [freshProduce]
  · norm_num [freshProduce]
  · norm_num [freshProduce]
  · norm_num [freshProduce]
  · show (100 : ℚ) = round2 100
    rw [round2_eq_of 100 10000 (by norm_num) (by norm_num)]
    norm_num
  · show (125 : ℚ) = round2 (100 / (1 - 20 / 100))
    rw [show (100 : ℚ) / (1 - 20 / 100) = 125 by norm_num,
      round2_eq_of 125 12500 (by norm_num) (by norm_num)]
    norm_num
  · norm_num [discountSupport, t2inp, List.mem_cons]
  · norm_num [distanceLo, t2inp]
  · norm_num [distanceHi, t2inp]
  · exact ⟨by norm_num [t2inp], by norm_num [t2inp]⟩

theorem c2inp_valid : ValidTxInput c2inp := by
  refine ⟨⟨groceries, by simp [productCategories], 92.5, 12.5, ?_, ?_, ?_, ?_,
    ?_, ?_, rfl⟩, ?_, ?_, ?_, rfl⟩
  · norm_num [groceries]
  · norm_num [groceries]
  · norm_num [groceries]
  · norm_num [groceries]
  · show (92.5 : ℚ) = round2 92.5
    rw [round2_eq_of 92.5 9250 (by norm_num) (by norm_num)]
    norm_num
  · show (105.71 : ℚ) = round2 (92.5 / (1 - 12.5 / 100))
    rw [show (92.5 : ℚ) / (1 - 12.5 / 100) = 740/7 by norm_num,
      round2_eq_of (740/7) 10571 (by norm_num) (by norm_num)]
    norm_num
  · norm_num [discountSupport, c2inp, List.mem_cons]
  · norm_num [distanceLo, c2inp]
  · norm_num [distanceHi, c2inp]

/-! ## Claim theorems -/

/-- C3: the transaction financial derivation on `list_price=100, discount=10,
qty=2, unit_cost=40, tier=Metro, distance=10`, non-perishable, yields
`unit_price=90, revenue=180, product_cost=80, logistics_cost=40,
spoilage_cost=0, total_cost=120, margin=60, margin_pct=33.33`. -/
theorem c3_metro_scenario :
    (mkTransaction c3inp).unitPrice = 90 ∧
    (mkTransaction c3inp).revenue = 180 ∧
    (mkTransaction c3inp).productCost = 80 ∧
    (mkTransaction c3inp).logisticsCost = 40 ∧
    (mkTransaction c3inp).spoilageCost = 0 ∧
    (mkTransaction c3inp).totalCost = 120 ∧
    (mkTransaction c3inp).margin = 60 ∧
    (mkTransaction c3inp).marginPct = 33.33 := by
  have hq : rawQuantity c3inp = 2 := by decide
  have h1 : rawUnitPrice c3inp = 90 := by norm_num [rawUnitPrice, c3inp]
  have h2 : rawRevenue c3inp = 180 := by rw [rawRevenue, h1, hq]; norm_num
  have h3 : rawProductCost c3inp = 80 := by
    rw [rawProductCost, hq]
    norm_num [c3inp]
  have h4 : rawLogisticsCost c3inp = 40 := by
    norm_num [rawLogisticsCost, c3inp, logisticsRate, logisticsFee]
  have h5 : rawSpoilageCost c3inp = 0 := by
    norm_num [rawSpoilageCost, c3inp, spoilageCost]
  have h6 : rawTotalCost c3inp = 120 := by
    norm_num [rawTotalCost, h3, h4, h5]
  have h7 : rawMargin c3inp = 60 := by norm_num [rawMargin, h2, h6]
  have h8 : rawMarginPct c3inp = 100/3 := by
    rw [rawMarginPct, if_pos (by rw [h2]; norm_num), h7, h2]
    norm_num
  refine ⟨?_, ?_, ?_, ?_, ?_, ?_, ?_, ?_⟩ <;>
    simp only [mkTransaction, h1, h2, h3, h4, h5, h6, h7, h8]
  · rw [round2_eq_of 90 9000 (by norm_num) (by norm_num)]; norm_num
  · rw [round2_eq_of 180 18000 (by norm_num) (by norm_num)]; norm_num
  · rw [round2_eq_of 80 8000 (by norm_num) (by norm_num)]; norm_num
  · rw [round2_eq_of 40 4000 (by norm_num) (by norm_num)]; norm_num
  · rw [round2_eq_of 0 0 (by norm_num) (by norm_num)]; norm_num
  · rw [round2_eq_of 120 12000 (by norm_num) (by norm_num)]; norm_num
  · rw [round2_eq_of 60 6000 (by norm_num) (by norm_num)]; norm_num
  · rw [round2_eq_of (100/3) 3333 (by norm_num) (by norm_num)]; norm_num

/-- C4: `margin_pct` equals `margin/revenue*100` when revenue is positive and
`0` when revenue is `0`; the division is guarded by `revenue > 0`, and under
the generator's constraints (quantity clamped to `≥ 1`, discount `≤ 20`,
positive list price) the zero-revenue branch is unreachable. -/
theorem c4_margin_pct_guard : ∀ inp : TxInput,
    (rawRevenue inp = 0 → rawMarginPct inp = 0) ∧
    (ValidTxInput inp →
      0 < rawRevenue inp ∧
      rawMarginPct inp = rawMargin inp / rawRevenue inp * 100 ∧
      (mkTransaction inp).marginPct =
        round2 (rawMargin inp / rawRevenue inp * 100)) := by
  intro inp
  constructor
  · intro h0
    rw [rawMarginPct, h0]
    norm_num
  · rintro ⟨hprod, hdisc, -, -, -⟩
    have hlp := (validProduct_spread _ _ _ hprod).1
    have hlp2 := (validProduct_spread _ _ _ hprod).2
    have hdb := discount_bounds inp.tier inp.discount hdisc
    have hq : 1 ≤ rawQuantity inp := le_max_left 1 _
    have hqq : (0 : ℚ) < (rawQuantity inp : ℚ) := by
      exact_mod_cast lt_of_lt_of_le Int.zero_lt_one hq
    have hrev : 0 < rawRevenue inp := by
      rw [rawRevenue, rawUnitPrice]
      have hfac : 0 < 1 - inp.discount / 100 := by linarith [hdb.2]
      exact mul_pos (mul_pos (by linarith) hfac) hqq
    refine ⟨hrev, ?_, ?_⟩
    · rw [rawMarginPct, if_pos hrev]
    · show round2 (rawMarginPct inp) = _
      rw [rawMarginPct, if_pos hrev]

theorem c4_margin_pct_guard_witness :
    0 < rawRevenue sampleInput ∧
    rawMarginPct sampleInput =
      rawMargin sampleInput / rawRevenue sampleInput * 100 ∧
    (mkTransaction sampleInput).marginPct =
      round2 (rawMargin sampleInput / rawRevenue sampleInput * 100) :=
  (c4_margin_pct_guard sampleInput).2 sampleInput_valid

/-- C5: a nonzero stored spoilage cost only occurs for perishable products in
Tier 2 or Tier 3; it is 0 for Metro transactions and non-perishables, and
otherwise the raw spoilage equals `product_cost` times the uniform factor
drawn from `[0, 0.08)` for Tier 2 and `[0, 0.15)` for Tier 3. -/
theorem c5_spoilage : ∀ inp : TxInput, ValidTxInput inp →
    ((mkTransaction inp).spoilageCost ≠ 0 →
      inp.isPerishable = true ∧
      (inp.tier = Tier.tier2 ∨ inp.tier = Tier.tier3)) ∧
    ((inp.tier = Tier.metro ∨ inp.isPerishable = false) →
      (mkTransaction inp).spoilageCost = 0) ∧
    (inp.isPerishable = true → inp.tier = Tier.tier2 →
      rawSpoilageCost inp = rawProductCost inp * inp.spoilageDraw ∧
      0 ≤ inp.spoilageDraw ∧ inp.spoilageDraw < 8/100) ∧
    (inp.isPerishable = true → inp.tier = Tier.tier3 →
      rawSpoilageCost inp = rawProductCost inp * inp.spoilageDraw ∧
      0 ≤ inp.spoilageDraw ∧ inp.spoilageDraw < 15/100) := by
  rintro inp ⟨-, -, -, -, hdraw⟩
  have hzero : ∀ h : inp.tier = Tier.metro ∨ inp.isPerishable = false,
      (mkTransaction inp).spoilageCost = 0 := by
    intro h
    show round2 (rawSpoilageCost inp) = 0
    rw [rawSpoilage_eq_zero inp h, round2_zero]
  refine ⟨?_, hzero, ?_, ?_⟩
  · intro hne
    constructor
    · cases hp : inp.isPerishable
      · exact absurd (hzero (Or.inr hp)) hne
      · rfl
    · cases ht : inp.tier
      · exact absurd (hzero (Or.inl ht)) hne
      · exact Or.inl rfl
      · exact Or.inr rfl
  · intro hp ht
    rw [ht] at hdraw
    refine ⟨?_, hdraw.1, hdraw.2⟩
    rw [rawSpoilageCost, spoilageCost.eq_def, hp, ht]
    simp
  · intro hp ht
    rw [ht] at hdraw
    refine ⟨?_, hdraw.1, hdraw.2⟩
    rw [rawSpoilageCost, spoilageCost.eq_def, hp, ht]
    simp

theorem c5_spoilage_witness :
    ((mkTransaction t2inp).spoilageCost ≠ 0 →
      t2inp.isPerishable = true ∧
      (t2inp.tier = Tier.tier2 ∨ t2inp.tier = Tier.tier3)) ∧
    ((t2inp.tier = Tier.metro ∨ t2inp.isPerishable = false) →
      (mkTransaction t2inp).spoilageCost = 0) ∧
    (t2inp.isPerishable = true → t2inp.tier = Tier.tier2 →
      rawSpoilageCost t2inp = rawProductCost t2inp * t2inp.spoilageDraw ∧
      0 ≤ t2inp.spoilageDraw ∧ t2inp.spoilageDraw < 8/100) ∧
    (t2inp.isPerishable = true → t2inp.tier = Tier.tier3 →
      rawSpoilageCost t2inp = rawProductCost t2inp * t2inp.spoilageDraw ∧
      0 ≤ t2inp.spoilageDraw ∧ t2inp.spoilageDraw < 15/100) :=
  c5_spoilage t2inp t2inp_valid

/-- C6: for every transaction input, the stored quantity is clamped into
`[1, 10]` whatever the raw log-normal draw was, and (under the generator's
discount sampling) the stored discount is one of `{0, 5, 10, 15, 20}`. -/
theorem c6_qty_discount : ∀ inp : TxInput,
    1 ≤ (mkTransaction inp).quantity ∧ (mkTransaction inp).quantity ≤ 10 ∧
    (ValidTxInput inp →
      (mkTransaction inp).discountPct ∈ ([0, 5, 10, 15, 20] : List ℚ)) := by
  intro inp
  refine ⟨le_max_left 1 _, ?_, ?_⟩
  · show max 1 (min inp.rawQty 10) ≤ 10
    exact max_le (by norm_num) (min_le_right _ _)
  · rintro ⟨-, hdisc, -⟩
    exact support_subset inp.tier _ hdisc

theorem c6_qty_discount_witness :
    1 ≤ (mkTransaction sampleInput).quantity ∧
    (mkTransaction sampleInput).quantity ≤ 10 ∧
    (mkTransaction sampleInput).discountPct ∈ ([0, 5, 10, 15, 20] : List ℚ) :=
  ⟨(c6_qty_discount sampleInput).1, (c6_qty_discount sampleInput).2.1,
   (c6_qty_discount sampleInput).2.2 sampleInput_valid⟩

/-- C7: for every category in the table, any margin drawn from its range is
below 50%, so the denominator `1 - margin/100` of the list-price derivation
is positive and the division cannot fail. -/
theorem c7_margin_below_50 : ∀ cat ∈ productCategories, ∀ m : ℚ,
    cat.marginLo ≤ m → m < cat.marginHi → m < 50 ∧ 0 < 1 - m / 100 := by
  intro cat hcat m h1 h2
  have hb := (cat_ranges_bound cat hcat).2.2
  constructor <;> linarith

theorem c7_margin_below_50_witness :
    (15 : ℚ) < 50 ∧ (0 : ℚ) < 1 - 15 / 100 :=
  c7_margin_below_50 groceries (by simp [productCategories]) 15
    (by norm_num [groceries]) (by norm_num [groceries])

/-- C8: the product generator yields exactly `6+6+6+6+5+5+5 = 39` products,
and every valid product's stored list price strictly exceeds its stored unit
cost. -/
theorem c8_product_count_and_price : numProducts = 39 ∧
    ∀ (lp uc : ℚ) (pb : Bool), ValidProductFields lp uc pb → uc < lp := by
  constructor
  · rfl
  · intro lp uc pb h
    exact (validProduct_spread lp uc pb h).2

theorem c8_product_count_and_price_witness :
    numProducts = 39 ∧ (100 : ℚ) < 117.65 :=
  ⟨c8_product_count_and_price.1,
   c8_product_count_and_price.2 117.65 100 false sampleInput_valid.1⟩

/-- C10: a Metro transaction's discount is drawn from `{0, 5, 10, 15}` only —
20% is never generated for Metro — while both Tier 2 and Tier 3 include 20%
in their discount support. -/
theorem c10_metro_discount_support :
    (∀ inp : TxInput, ValidTxInput inp → inp.tier = Tier.metro →
      (mkTransaction inp).discountPct ∈ ([0, 5, 10, 15] : List ℚ) ∧
      (mkTransaction inp).discountPct ≠ 20) ∧
    (20 : ℚ) ∈ discountSupport Tier.tier2 ∧
    (20 : ℚ) ∈ discountSupport Tier.tier3 := by
  refine ⟨?_, ?_, ?_⟩
  · rintro inp ⟨-, hdisc, -⟩ ht
    rw [ht] at hdisc
    have hd : (mkTransaction inp).discountPct = inp.discount := rfl
    rw [hd]
    constructor
    · exact hdisc
    · intro h20
      rw [h20] at hdisc
      norm_num [discountSupport, List.mem_cons] at hdisc
  · norm_num [discountSupport, List.mem_cons]
  · norm_num [discountSupport, List.mem_cons]

theorem c10_metro_discount_support_witness :
    (mkTransaction sampleInput).discountPct ∈ ([0, 5, 10, 15] : List ℚ) ∧
    (mkTransaction sampleInput).discountPct ≠ 20 :=
  c10_metro_discount_support.1 sampleInput sampleInput_valid rfl

/-- C2 counterexample: the rounding identity between *stored* fields fails on
a reachable Metro transaction. With `list_price = 105.71`, `discount = 5`,
`qty = 1`, `unit_cost = 92.5`, `distance = 6.0036` the raw values are
`revenue = 100.4245`, `total_cost = 122.509`, `margin = -22.0845`, whose
independent roundings give stored `margin = -22.08` but
`round(stored_revenue - stored_total_cost, 2) = round(-22.09, 2) = -22.09`. -/
theorem c2_stored_counterexample : ¬ C2StoredClaim := by
  intro hclaim
  have h1 := (hclaim c2inp c2inp_valid).1
  have hq : rawQuantity c2inp = 1 := by decide
  have hup : rawUnitPrice c2inp = 200849/2000 := by
    norm_num [rawUnitPrice, c2inp]
  have hrev : rawRevenue c2inp = 200849/2000 := by
    rw [rawRevenue, hup, hq]
    norm_num
  have hpc : rawProductCost c2inp = 185/2 := by
    rw [rawProductCost, hq]
    norm_num [c2inp]
  have hlog : rawLogisticsCost c2inp = 30009/1000 := by
    norm_num [rawLogisticsCost, c2inp, logisticsRate, logisticsFee]
  have hsp : rawSpoilageCost c2inp = 0 := rawSpoilage_eq_zero c2inp (Or.inl rfl)
  have htot : rawTotalCost c2inp = 122509/1000 := by
    rw [rawTotalCost, hpc, hlog, hsp]
    norm_num
  have hmar : rawMargin c2inp = -220845/10000 := by
    rw [rawMargin, hrev, htot]
    norm_num
  have smar : (mkTransaction c2inp).margin = -2208/100 := by
    show round2 (rawMargin c2inp) = -2208/100
    rw [hmar, round2_eq_of (-220845/10000 : ℚ) (-2208) (by norm_num)
      (by norm_num)]
    norm_num
  have srev : (mkTransaction c2inp).revenue = 10042/100 := by
    show round2 (rawRevenue c2inp) = 10042/100
    rw [hrev, round2_eq_of (200849/2000 : ℚ) 10042 (by norm_num) (by norm_num)]
    norm_num
  have stot : (mkTransaction c2inp).totalCost = 12251/100 := by
    show round2 (rawTotalCost c2inp) = 12251/100
    rw [htot, round2_eq_of (122509/1000 : ℚ) 12251 (by norm_num) (by norm_num)]
    norm_num
  rw [smar, srev, stot,
    show (10042 : ℚ)/100 - 12251/100 = -2209/100 by norm_num,
    round2_eq_of (-2209/100 : ℚ) (-2209) (by norm_num) (by norm_num)] at h1
  norm_num at h1

/-- C2 (amended): each stored field is the 2-decimal rounding of its *raw*
(pre-rounding) value, so `margin = round(raw_revenue - raw_total_cost, 2)`
and `total_cost = round(raw_product_cost + raw_logistics_cost +
raw_spoilage_cost, 2)`; between the stored fields themselves the identity
only holds up to the accumulated rounding error of `3/200`. -/
theorem c2_raw_rounding : ∀ inp : TxInput,
    (mkTransaction inp).margin = round2 (rawRevenue inp - rawTotalCost inp) ∧
    (mkTransaction inp).totalCost =
      round2 (rawProductCost inp + rawLogisticsCost inp +
        rawSpoilageCost inp) ∧
    |(mkTransaction inp).margin -
      ((mkTransaction inp).revenue - (mkTransaction inp).totalCost)| ≤
      3/200 := by
  intro inp
  refine ⟨rfl, rfl, ?_⟩
  have b1 := round2_ge (rawMargin inp)
  have b2 := round2_le (rawMargin inp)
  have b3 := round2_ge (rawRevenue inp)
  have b4 := round2_le (rawRevenue inp)
  have b5 := round2_ge (rawTotalCost inp)
  have b6 := round2_le (rawTotalCost inp)
  have hm : rawMargin inp = rawRevenue inp - rawTotalCost inp := rfl
  show |round2 (rawMargin inp) -
    (round2 (rawRevenue inp) - round2 (rawTotalCost inp))| ≤ 3/200
  rw [abs_le]
  constructor <;> linarith

/-! ## The cluster-naming lemmas -/

theorem le_idxmaxF (f : Fin 4 → ℚ) (i : Fin 4) : f i ≤ f (idxmaxF f) := by
  have h4 : List.finRange 4 = [0, 1, 2, 3] := rfl
  have key : f 0 ≤ f (idxmaxF f) ∧ f 1 ≤ f (idxmaxF f) ∧
      f 2 ≤ f (idxmaxF f) ∧ f 3 ≤ f (idxmaxF f) := by
    rw [idxmaxF, h4]
    simp only [List.foldl]
    split_ifs <;> refine ⟨?_, ?_, ?_, ?_⟩ <;> linarith
  fin_cases i
  · exact key.1
  · exact key.2.1
  · exact key.2.2.1
  · exact key.2.2.2

theorem idxminF_le (f : Fin 4 → ℚ) (i : Fin 4) : f (idxminF f) ≤ f i := by
  have h4 : List.finRange 4 = [0, 1, 2, 3] := rfl
  have key : f (idxminF f) ≤ f 0 ∧ f (idxminF f) ≤ f 1 ∧
      f (idxminF f) ≤ f 2 ∧ f (idxminF f) ≤ f 3 := by
    rw [idxminF, h4]
    simp only [List.foldl]
    split_ifs <;> refine ⟨?_, ?_, ?_, ?_⟩ <;> linarith
  fin_cases i
  · exact key.1
  · exact key.2.1
  · exact key.2.2.1
  · exact key.2.2.2

/-- With pairwise-distinct revenues the max-revenue and min-revenue clusters
differ. -/
theorem idxmaxF_ne_idxminF (f : Fin 4 → ℚ)
    (hdist : ∀ i j : Fin 4, i ≠ j → f i ≠ f j) : idxmaxF f ≠ idxminF f := by
  intro h
  have hall : ∀ i : Fin 4, f i = f (idxmaxF f) := fun i =>
    le_antisymm (le_idxmaxF f i) (h ▸ idxminF_le f i)
  have hne := hdist 0 1 (by decide)
  rw [hall 0, hall 1] at hne
  exact hne rfl

/-- A key already bound in the dict keeps its value: the "Moderate" override
only touches the first unbound cluster id. -/
theorem clusterNames_eq_of_some (rev cnt : Fin 4 → ℚ) (k : Fin 4) (v : String)
    (h : baseNames rev cnt k = some v) : clusterNames rev cnt k = some v := by
  unfold clusterNames
  cases hf : (List.finRange 4).filter
      (fun i => (baseNames rev cnt i).isNone) with
  | nil => exact h
  | cons r t =>
    have hrmem : r ∈ (List.finRange 4).filter
        (fun i => (baseNames rev cnt i).isNone) := by
      rw [hf]
      exact List.mem_cons_self r t
    have hr : (baseNames rev cnt r).isNone = true :=
      (List.mem_filter.mp hrmem).2
    show updateMap (baseNames rev cnt) r "Moderate" k = some v
    rw [updateMap]
    rw [if_neg]
    · exact h
    · intro hk
      rw [← hk, h] at hr
      simp at hr

/-- C1 counterexample: on profiles where cluster 0 has both the maximum
average revenue and the maximum average purchase count, the dict literal's
later entry wins and cluster 0 is named "Frequent Buyers", not
"High Value" as the claim's tie rule states. -/
theorem c1_tie_counterexample : ¬ C1StatedClaim := by
  intro h
  have h1 := (h c1tie c1tie).1
  have h2 : clusterNames c1tie c1tie (idxmaxF c1tie) =
      some "Frequent Buyers" := by decide
  rw [h1] at h2
  exact absurd h2 (by decide)

/-- C1 (amended): with pairwise-distinct average revenues, the max-revenue
cluster is named "High Value" whenever it differs from the max-purchase
cluster, the max-purchase cluster is named "Frequent Buyers" whenever it
differs from the min-revenue cluster, and when the max-revenue and
max-purchase clusters coincide that cluster is named "Frequent Buyers" (in
the Python dict literal the later duplicate key assignment overwrites the
earlier one). -/
theorem c1_cluster_naming (rev cnt : Fin 4 → ℚ)
    (hdist : ∀ i j : Fin 4, i ≠ j → rev i ≠ rev j) :
    (idxmaxF rev ≠ idxmaxF cnt →
      clusterNames rev cnt (idxmaxF rev) = some "High Value") ∧
    (idxmaxF cnt ≠ idxmaxF rev → idxmaxF cnt ≠ idxminF rev →
      clusterNames rev cnt (idxmaxF cnt) = some "Frequent Buyers") ∧
    (idxmaxF rev = idxmaxF cnt →
      clusterNames rev cnt (idxmaxF rev) = some "Frequent Buyers") := by
  have hac : idxmaxF rev ≠ idxminF rev := idxmaxF_ne_idxminF rev hdist
  refine ⟨?_, ?_, ?_⟩
  · intro hab
    apply clusterNames_eq_of_some
    simp only [baseNames, updateMap]
    rw [if_neg hac, if_neg hab]
    simp
  · intro hba hbc
    apply clusterNames_eq_of_some
    simp only [baseNames, updateMap]
    rw [if_neg hbc]
    simp
  · intro hab
    apply clusterNames_eq_of_some
    simp only [baseNames, updateMap]
    rw [if_neg hac, if_pos hab]

theorem c1_cluster_naming_witness :
    (idxmaxF c1rev ≠ idxmaxF c1cnt →
      clusterNames c1rev c1cnt (idxmaxF c1rev) = some "High Value") ∧
    (idxmaxF c1cnt ≠ idxmaxF c1rev → idxmaxF c1cnt ≠ idxminF c1rev →
      clusterNames c1rev c1cnt (idxmaxF c1cnt) = some "Frequent Buyers") ∧
    (idxmaxF c1rev = idxmaxF c1cnt →
      clusterNames c1rev c1cnt (idxmaxF c1rev) = some "Frequent Buyers") :=
  c1_cluster_naming c1rev c1cnt (by decide)

/-! ## The classifier guard -/

theorem boolList_one_lt_dedup (l : List Bool) :
    1 < l.dedup.length ↔ true ∈ l ∧ false ∈ l := by
  rw [← List.card_toFinset, Finset.one_lt_card]
  constructor
  · rintro ⟨a, ha, b, hb, hab⟩
    rw [List.mem_toFinset] at ha hb
    cases a <;> cases b <;> simp_all
  · rintro ⟨ht, hf⟩
    exact ⟨true, List.mem_toFinset.mpr ht, false, List.mem_toFinset.mpr hf,
      by simp⟩

/-- C9: the classifier stage trains exactly when the `margin_pct < 10` label
column has both classes (some store below 10% and some store not), and
otherwise skips with a warning — the guard `len(y.unique()) > 1`. -/
theorem c9_classifier_guard (margins : List ℚ) :
    (marginRiskStage margins = ClassifierOutcome.trained ↔
      (∃ m ∈ margins, m < 10) ∧ (∃ m ∈ margins, ¬ m < 10)) ∧
    (marginRiskStage margins = ClassifierOutcome.skippedWarning ↔
      ¬ ((∃ m ∈ margins, m < 10) ∧ (∃ m ∈ margins, ¬ m < 10))) := by
  have key : (1 < ((margins.map fun m => decide (m < 10)).dedup).length) ↔
      (∃ m ∈ margins, m < 10) ∧ (∃ m ∈ margins, ¬ m < 10) := by
    rw [boolList_one_lt_dedup]
    simp [List.mem_map, decide_eq_true_iff, decide_eq_false_iff_not]
  constructor
  · rw [marginRiskStage]
    split_ifs with hc
    · exact iff_of_true rfl (key.mp hc)
    · exact iff_of_false (by simp) (fun h => hc (key.mpr h))
  · rw [marginRiskStage]
    split_ifs with hc
    · exact iff_of_false (by simp) (fun h => h (key.mp hc))
    · exact iff_of_true rfl (fun h => hc (key.mpr h))

theorem c9_classifier_guard_witness :
    marginRiskStage [5, 15] = ClassifierOutcome.trained :=
  (c9_classifier_guard [5, 15]).1.mpr
    ⟨⟨5, by simp, by norm_num⟩, ⟨15, by simp, by norm_num⟩⟩
